import Mathlib

/-!
Verification of the Vehicle-Analytics-RTSP camera-session engine.

This file gives a shallow embedding, in Lean 4, of the parts of the
repository that the verified properties talk about:

* the zone-containment geometry (`point_in_polygon` and
  `check_point_in_zones` from `utils/zones.py` and `zones.py` — the two
  copies are textually identical);
* `load_zones` from the same modules, modelled over an explicit JSON value
  type together with the Python exception behaviour of `dict.get`;
* the per-frame analytics aggregation of `VideoCamera.generate`
  (`services/detect.py` lines 196-241, and the older variant in
  `detect.py` lines 152-193);
* the control-flow skeleton of one iteration of the `generate` loop
  (which steps are inside the `try` block);
* the reconnect behaviour of `VideoCamera.read_frame` against a simulated
  source, and `VideoCamera._release_capture` with Python
  `Popen.wait(timeout)` semantics.

Python float arithmetic is modelled by exact rational arithmetic (`Rat`);
Python exceptions are modelled with `Except` where they matter to a
property.  Each claim is settled by one theorem below the definitions.
-/

namespace VehicleAnalytics

/-- A point in frame pixel coordinates, as the pair unpacked by
`x, y = point` in the Python source. -/
abbrev Point := Rat × Rat

/-! ## Geometry: `point_in_polygon` (zones.py lines 23-45) -/

/-- Python exception values that the modelled code can raise. -/
inductive PyErr where
  | attributeError
  | zeroDivisionError
  | timeoutExpired
  deriving DecidableEq, Repr

/-- One pass of the loop body of `point_in_polygon` for the edge
`(p1x,p1y)-(p2x,p2y)`: decides whether the horizontal ray through the
query point `(x,y)` crosses this edge, with exactly the nested guards of
the source (`y > min(p1y, p2y)`, `y <= max(p1y, p2y)`,
`x <= max(p1x, p2x)`, the `p1y != p2y` guard around the division, and the
final `p1x == p2x or x <= xinters`). -/
def crossesEdge (x y p1x p1y p2x p2y : Rat) : Bool :=
  if min p1y p2y < y then
    if y ≤ max p1y p2y then
      if x ≤ max p1x p2x then
        let xinters : Rat :=
          if p1y ≠ p2y then (y - p1y) * (p2x - p1x) / (p2y - p1y) + p1x else p1x
        decide (p1x = p2x) || decide (x ≤ xinters)
      else false
    else false
  else false

/-- The sequence of edges walked by the `for i in range(1, n + 1)` loop:
`(polygon[i-1], polygon[i % n])` for `i = 1 .. n`, i.e. consecutive
vertex pairs with the closing edge back to `polygon[0]`. -/
def polygonEdges (poly : List Point) : List (Point × Point) :=
  match poly with
  | [] => []
  | p0 :: _ => poly.zip (poly.tail ++ [p0])

/-- `point_in_polygon` from zones.py: ray casting.  Polygons with fewer
than 3 points immediately report `False`; otherwise the `inside` flag is
flipped once per crossed edge. -/
def point_in_polygon (pt : Point) (polygon : List Point) : Bool :=
  if polygon.length < 3 then false
  else (polygonEdges polygon).foldl
    (fun inside e =>
      if crossesEdge pt.1 pt.2 e.1.1 e.1.2 e.2.1 e.2.2 then !inside else inside)
    false

/-- Division with the Python semantics of raising `ZeroDivisionError` on a
zero divisor, used to show the source never executes a division by zero. -/
def divChecked (a b : Rat) : Except PyErr Rat :=
  if b = 0 then .error .zeroDivisionError else .ok (a / b)

/-- `crossesEdge` with the division instrumented: raises exactly when the
source expression `(y - p1y) * (p2x - p1x) / (p2y - p1y)` would divide by
zero.  The division sits, as in the source, only under the `p1y != p2y`
guard. -/
def crossesEdgeChecked (x y p1x p1y p2x p2y : Rat) : Except PyErr Bool :=
  if min p1y p2y < y then
    if y ≤ max p1y p2y then
      if x ≤ max p1x p2x then do
        let xinters : Rat ←
          if p1y ≠ p2y then do
            let q ← divChecked ((y - p1y) * (p2x - p1x)) (p2y - p1y)
            pure (q + p1x)
          else pure p1x
        pure (decide (p1x = p2x) || decide (x ≤ xinters))
      else pure false
    else pure false
  else pure false

/-- `point_in_polygon` with every division instrumented for
`ZeroDivisionError`. -/
def point_in_polygon_checked (pt : Point) (polygon : List Point) : Except PyErr Bool :=
  if polygon.length < 3 then .ok false
  else (polygonEdges polygon).foldlM
    (fun inside e => do
      let c ← crossesEdgeChecked pt.1 pt.2 e.1.1 e.1.2 e.2.1 e.2.2
      pure (if c then !inside else inside))
    false

/-! ## Geometry: `check_point_in_zones` (zones.py lines 47-50) -/

/-- The `for i, polygon in enumerate(zones_polygons_only)` loop of
`check_point_in_zones`, carrying the running index. -/
def checkZonesFrom (pt : Point) : Nat → List (List Point) → Int
  | _, [] => -1
  | i, poly :: rest =>
      if point_in_polygon pt poly then (i : Int) else checkZonesFrom pt (i + 1) rest

/-- `check_point_in_zones` from zones.py: index of the first polygon
containing the point, `-1` if none does. -/
def check_point_in_zones (pt : Point) (zones_polygons_only : List (List Point)) : Int :=
  checkZonesFrom pt 0 zones_polygons_only

/-! ## JSON values and `load_zones` (zones.py lines 4-16) -/

/-- The values `json.load` can produce. -/
inductive Json where
  | null
  | bool (b : Bool)
  | num (q : Rat)
  | str (s : String)
  | arr (elems : List Json)
  | obj (fields : List (String × Json))

/-- Python `dict` lookup on the field list of a JSON object (JSON object
keys are unique, so first match is the match). -/
def lookupField : List (String × Json) → String → Option Json
  | [], _ => none
  | (k, v) :: rest, key => if k = key then some v else lookupField rest key

/-- The state of the zones file as `load_zones` can encounter it.
`unreadable` stands for an `IOError` when opening/reading, `invalidJson`
for a `json.JSONDecodeError`, `content j` for a successful parse. -/
inductive FileState where
  | absent
  | unreadable
  | invalidJson
  | content (j : Json)

/-- `load_zones` from zones.py.  A missing file returns `[]`; the `try`
block catches exactly `json.JSONDecodeError` and `IOError`, so those two
return `[]`; on a successful parse, `data.get('zones')` raises
`AttributeError` when the top-level value is not an object (Python lists,
strings, numbers, booleans and `None` have no `.get`), and otherwise the
`isinstance(data.get('zones'), list)` test selects the zones list or
`[]`.  The raised `AttributeError` is not in the `except` clause and
propagates to the caller. -/
def load_zones (f : FileState) : Except PyErr (List Json) :=
  match f with
  | .absent => .ok []
  | .unreadable => .ok []
  | .invalidJson => .ok []
  | .content data =>
      match data with
      | .obj fields =>
          match lookupField fields "zones" with
          | some (.arr zs) => .ok zs
          | _ => .ok []
      | _ => .error .attributeError

/-! ## Zone shape validation in `generate`
(services/detect.py lines 184-194, detect.py lines 141-150) -/

/-- The per-zone test of the validation loop:
`isinstance(zone, dict) and 'points' in zone and isinstance(zone['points'], list)`. -/
def zoneIsWellFormed (z : Json) : Bool :=
  match z with
  | .obj fields =>
      match lookupField fields "points" with
      | some (.arr _) => true
      | _ => false
  | _ => false

/-- `zone['points']` for a well-formed zone (and `[]` on the shapes the
validation loop rejects, where the source never reads the field). -/
def zonePointsList (z : Json) : List Json :=
  match z with
  | .obj fields =>
      match lookupField fields "points" with
      | some (.arr ps) => ps
      | _ => []
  | _ => []

/-- The validation loop of `generate`: builds `polygons_only` and
`valid_zones` in input order, skipping (with a logged warning) every zone
that fails `zoneIsWellFormed`. -/
def validateZones (zones_data : List Json) : List (List Json) × List Json :=
  match zones_data with
  | [] => ([], [])
  | z :: rest =>
      let tail := validateZones rest
      if zoneIsWellFormed z then (zonePointsList z :: tail.1, z :: tail.2)
      else tail

/-! ## Analytics aggregation (services/detect.py lines 196-241) -/

/-- One detection as consumed by the counting loop: the `xyxy` box corners
and the class id.  (The confidence only flows into the drawn label, never
into the statistics, so it is omitted.) -/
structure Detection where
  x1 : Rat
  y1 : Rat
  x2 : Rat
  y2 : Rat
  cls_id : Nat

/-- `self.vehicle_class_ids`: COCO class ids of the tracked vehicles. -/
def vehicle_class_ids : List (Nat × String) :=
  [(2, "car"), (3, "motorcycle"), (5, "bus"), (7, "truck")]

/-- `self.exclude_class_ids` of the older detect.py variant. -/
def exclude_class_ids : List (Nat × String) := [(0, "person")]

/-- Python `dict` lookup on a class-id keyed dictionary. -/
def lookupClassName : List (Nat × String) → Nat → Option String
  | [], _ => none
  | (k, v) :: rest, key => if k = key then some v else lookupClassName rest key

/-- `cls_id in self.vehicle_class_ids`. -/
def isVehicleClass (c : Nat) : Bool := (lookupClassName vehicle_class_ids c).isSome

/-- `cls_id in self.exclude_class_ids`. -/
def isExcludedClass (c : Nat) : Bool := (lookupClassName exclude_class_ids c).isSome

/-- `self.model.names[cls_id]`.  Only the names of the four tracked
vehicle ids are observable in the statistics (a count is updated only
after `cls_id in self.vehicle_class_ids` has passed, and the COCO names of
ids 2, 3, 5, 7 coincide with `vehicle_class_ids`), so the remaining COCO
names are collapsed to a placeholder. -/
def model_names (c : Nat) : String :=
  (lookupClassName vehicle_class_ids c).getD "nonvehicle"

/-- `cx, cy = (x1 + x2) / 2, (y1 + y2) / 2`. -/
def centroid (d : Detection) : Point := ((d.x1 + d.x2) / 2, (d.y1 + d.y2) / 2)

/-- The statistics accumulated per frame and written to the stats file.
Python dictionaries keyed by class name are insertion-ordered association
lists. -/
structure Stats where
  total_vehicles : Nat
  vehicle_type_counts : List (String × Nat)
  zone_vehicle_counts : List (List (String × Nat))

/-- `d[key] = d.get(key, 0) + 1` on an insertion-ordered dictionary:
update the entry in place, or append a fresh entry with value 1. -/
def bump : List (String × Nat) → String → List (String × Nat)
  | [], key => [(key, 1)]
  | (k, v) :: rest, key =>
      if k = key then (k, v + 1) :: rest else (k, v) :: bump rest key

/-- `d.get(key, 0)`. -/
def getCount : List (String × Nat) → String → Nat
  | [], _ => 0
  | (k, v) :: rest, key => if k = key then v else getCount rest key

/-- Sum of the values of one per-class count dictionary. -/
def sumCounts (m : List (String × Nat)) : Nat := (m.map Prod.snd).sum

/-- Sum of all per-class counts across all zone entries. -/
def sumZoneCounts (zvc : List (List (String × Nat))) : Nat := (zvc.map sumCounts).sum

/-- `lst[i] = f(lst[i])` on a Python list (no effect out of range; the
source only reaches it under an in-range guard). -/
def modifyIdx : List α → Nat → (α → α) → List α
  | [], _, _ => []
  | a :: rest, 0, f => f a :: rest
  | a :: rest, n + 1, f => a :: modifyIdx rest n f

/-- `zone_vehicle_counts = [{} for _ in range(len(polygons_only))]`,
together with `total_vehicles = 0` and `vehicle_type_counts = {}`. -/
def initStats (polys : List (List Point)) : Stats :=
  ⟨0, [], List.replicate polys.length []⟩

/-- The body of the per-detection loop of `generate` in
services/detect.py (lines 210-234): locate the centroid, and when
`cls_id in self.vehicle_class_ids and zone_idx != -1`, increment
`total_vehicles`, `vehicle_type_counts[class_name]` and — under the
`zone_idx < len(zone_vehicle_counts)` guard —
`zone_vehicle_counts[zone_idx][class_name]`. -/
def countDetection (polys : List (List Point)) (s : Stats) (d : Detection) : Stats :=
  let zone_idx := check_point_in_zones (centroid d) polys
  let class_name := model_names d.cls_id
  if isVehicleClass d.cls_id ∧ zone_idx ≠ -1 then
    let s1 : Stats :=
      { s with
        total_vehicles := s.total_vehicles + 1
        vehicle_type_counts := bump s.vehicle_type_counts class_name }
    if zone_idx < (s1.zone_vehicle_counts.length : Int) then
      { s1 with
        zone_vehicle_counts :=
          modifyIdx s1.zone_vehicle_counts zone_idx.toNat (fun m => bump m class_name) }
    else s1
  else s

/-- The whole counting pass of one frame in services/detect.py: fold the
per-detection body over the detection list starting from the empty
statistics. -/
def aggregate (dets : List Detection) (polys : List (List Point)) : Stats :=
  dets.foldl (countDetection polys) (initStats polys)

/-- The per-detection loop body of the older detect.py variant
(lines 164-187): the keep condition is
`zone_idx != -1 and cls_id in self.vehicle_class_ids and cls_id not in self.exclude_class_ids`,
and the three increments are the same. -/
def countDetectionLegacy (polys : List (List Point)) (s : Stats) (d : Detection) : Stats :=
  let zone_idx := check_point_in_zones (centroid d) polys
  let class_name := model_names d.cls_id
  if zone_idx ≠ -1 ∧ isVehicleClass d.cls_id ∧ ¬ isExcludedClass d.cls_id then
    let s1 : Stats :=
      { s with
        total_vehicles := s.total_vehicles + 1
        vehicle_type_counts := bump s.vehicle_type_counts class_name }
    if zone_idx < (s1.zone_vehicle_counts.length : Int) then
      { s1 with
        zone_vehicle_counts :=
          modifyIdx s1.zone_vehicle_counts zone_idx.toNat (fun m => bump m class_name) }
    else s1
  else s

/-- The counting pass of one frame in the older detect.py variant. -/
def aggregateLegacy (dets : List Detection) (polys : List (List Point)) : Stats :=
  dets.foldl (countDetectionLegacy polys) (initStats polys)

/-- The keep condition of services/detect.py line 221, named for use in
statements: tracked vehicle class and centroid inside some zone. -/
def keepDetection (polys : List (List Point)) (d : Detection) : Bool :=
  isVehicleClass d.cls_id && decide (check_point_in_zones (centroid d) polys ≠ -1)

/-! ## The `generate` loop iteration (services/detect.py lines 176-303) -/

/-- What one iteration of the `while True` loop in `generate` does, seen
from the outside. -/
inductive IterResult where
  | yieldAnnotated        -- the normal path: annotated frame encoded and yielded
  | yieldRaw              -- the `except` path: raw captured frame encoded and yielded
  | skipIteration         -- `if not ret: continue`
  | uncaught (e : PyErr)  -- an exception escapes the loop body: the generator exits
  deriving DecidableEq, Repr

/-- Control-flow skeleton of one iteration of `generate`: the frame read
(`if not ret: continue`), then `load_zones` and the zone validation loop
— both OUTSIDE the `try` block — then the `try` block (detection,
aggregation, stats write, annotation, JPEG encoding), abstracted by the
flag `tryStepsRaise` saying whether anything in it raised; the `except`
encodes and yields the raw frame and continues. -/
def generate_iter (readOk : Bool) (zonesFile : FileState) (tryStepsRaise : Bool) :
    IterResult :=
  if !readOk then .skipIteration
  else
    match load_zones zonesFile with
    | .error e => .uncaught e
    | .ok _zones_data => if tryStepsRaise then .yieldRaw else .yieldAnnotated

/-! ## Reconnect behaviour of `read_frame`
(services/detect.py lines 103-149) -/

/-- A simulated camera source: `initR k` is the outcome of the `k`-th
re-initialization attempt (`_initialize_capture` producing a usable
capture), `readR k` the outcome of the `k`-th frame read while
connected. -/
structure SimSource where
  initR : Nat → Bool
  readR : Nat → Bool

/-- The connection state `read_frame` manipulates, plus cursors into the
simulated outcome sequences. -/
structure CamState where
  is_connected : Bool
  initIdx : Nat
  readIdx : Nat

/-- The read taken once connected: on success return the frame, on a
short/failed read release the capture, mark `Disconnected` and return
no-frame (without sleeping). -/
def readConnected (src : SimSource) (s : CamState) : (Bool × Nat) × CamState :=
  if src.readR s.readIdx then
    ((true, 0), { s with readIdx := s.readIdx + 1 })
  else
    ((false, 0), { s with is_connected := false, readIdx := s.readIdx + 1 })

/-- `read_frame` with `reconnect_delay = delay`: while disconnected it
attempts `_initialize_capture`; on failure it sleeps `delay` seconds and
returns `(False, None)`; on success it marks `Connected` and proceeds to
the read in the same call.  The result pairs the `ret` flag with the
seconds slept inside the call. -/
def read_frame (delay : Nat) (src : SimSource) (s : CamState) : (Bool × Nat) × CamState :=
  if !s.is_connected then
    if src.initR s.initIdx then
      readConnected src { s with is_connected := true, initIdx := s.initIdx + 1 }
    else
      ((false, delay), { s with initIdx := s.initIdx + 1 })
  else
    readConnected src s

/-- `n` successive calls of `read_frame` by the session loop, collecting
the `(ret, slept)` observations. -/
def runReads (delay : Nat) (src : SimSource) : Nat → CamState → List (Bool × Nat) × CamState
  | 0, s => ([], s)
  | n + 1, s =>
      let r := read_frame delay src s
      let rest := runReads delay src n r.2
      (r.1 :: rest.1, rest.2)

/-! ## `_release_capture` (services/detect.py lines 151-166) -/

/-- The decoder subprocess as release sees it: whether it exits within
the `wait(timeout=5)` window after `terminate()`. -/
structure FfmpegProc where
  exitsWithinTimeout : Bool
  deriving DecidableEq, Repr

/-- Observable actions of `_release_capture`. -/
inductive RelEvent where
  | terminateSent   -- self.ffmpeg_process.terminate()
  | waited          -- self.ffmpeg_process.wait(timeout=5) returned
  | killed          -- self.ffmpeg_process.kill()
  | capReleased     -- self.cap.release()
  deriving DecidableEq, Repr

/-- The fields of the camera object that release touches. -/
structure RelState where
  use_subprocess_ffmpeg : Bool
  ffmpeg_process : Option FfmpegProc
  capOpen : Bool
  deriving DecidableEq, Repr

/-- `_release_capture`, with Python `Popen.wait(timeout=5)` semantics:
`wait` returns only if the process exits within the timeout, and RAISES
`subprocess.TimeoutExpired` otherwise (there is no `try` around it, so
the raise aborts the rest of the body and the field assignments).  After
a `wait` that returned, `poll()` is the exit code and never `None`, so
the guarded `kill()` is unreachable.  The result pairs the emitted events
with the outcome. -/
def release_capture (s : RelState) : List RelEvent × Except PyErr RelState :=
  if s.use_subprocess_ffmpeg then
    match s.ffmpeg_process with
    | some p =>
        if p.exitsWithinTimeout then
          ([.terminateSent, .waited],
           .ok { s with ffmpeg_process := none, capOpen := false })
        else
          ([.terminateSent], .error .timeoutExpired)
    | none => ([], .ok s)
  else
    if s.capOpen then ([.capReleased], .ok { s with capOpen := false })
    else ([], .ok s)

end VehicleAnalytics

namespace VehicleAnalytics

/-! ## Concrete inputs used by witnesses -/

/-- A triangle used as a concrete zone polygon in witness statements. -/
def witnessTriangle : List Point := [(0, 0), (4, 0), (0, 4)]

/-- The zone-drawing guards of `generate` (services/detect.py lines
278-288): `if not poly: continue` and then `if len(pts) > 2` before
`fillPoly` and `polylines`.  A zone polygon is rendered iff this holds. -/
def shouldDrawZonePolygon (poly : List Point) : Bool :=
  if poly.isEmpty then false else decide (2 < poly.length)

/-- A persisted zone entry whose point list has only 2 points, used as a
concrete input. -/
def twoPointZone : Json :=
  Json.obj [("id", Json.num 1), ("name", Json.str "gate"),
            ("points", Json.arr [Json.arr [Json.num 0, Json.num 0],
                                 Json.arr [Json.num 5, Json.num 0]])]

/-! ## Helper lemmas: the checked ray casting never divides by zero -/

theorem except_bind_ok (a : α) (f : α → Except ε β) :
    (Except.ok a : Except ε α) >>= f = f a := rfl

theorem except_pure_eq (a : α) : (pure a : Except ε α) = Except.ok a := rfl

theorem crossesEdgeChecked_eq (x y p1x p1y p2x p2y : Rat) :
    crossesEdgeChecked x y p1x p1y p2x p2y = .ok (crossesEdge x y p1x p1y p2x p2y) := by
  unfold crossesEdgeChecked crossesEdge
  by_cases h1 : min p1y p2y < y
  · by_cases h2 : y ≤ max p1y p2y
    · by_cases h3 : x ≤ max p1x p2x
      · by_cases h4 : p1y = p2y
        · -- a horizontal edge cannot satisfy both strict-min and max guards
          subst h4
          simp only [min_self] at h1
          simp only [max_self] at h2
          exact absurd h2 (not_le.mpr h1)
        · have hz : p2y - p1y ≠ 0 := sub_ne_zero.mpr (Ne.symm h4)
          simp [h1, h2, h3, h4, divChecked, hz, except_bind_ok, except_pure_eq]
      · simp [h1, h2, h3, except_pure_eq]
    · simp [h1, h2, except_pure_eq]
  · simp [h1, except_pure_eq]

theorem foldlM_crosses_ok (x y : Rat) (es : List (Point × Point)) (b : Bool) :
    List.foldlM (m := Except PyErr)
      (fun inside e => do
        let c ← crossesEdgeChecked x y e.1.1 e.1.2 e.2.1 e.2.2
        pure (if c then !inside else inside)) b es
      = Except.ok (es.foldl
          (fun inside e =>
            if crossesEdge x y e.1.1 e.1.2 e.2.1 e.2.2 then !inside else inside) b) := by
  induction es generalizing b with
  | nil => rfl
  | cons e rest ih =>
      have ih' := ih (if crossesEdge x y e.1.1 e.1.2 e.2.1 e.2.2 then !b else b)
      simp only [crossesEdgeChecked_eq, except_bind_ok, except_pure_eq] at ih' ⊢
      simp only [List.foldlM, List.foldl, except_bind_ok]
      exact ih'

theorem point_in_polygon_checked_eq (pt : Point) (poly : List Point) :
    point_in_polygon_checked pt poly = .ok (point_in_polygon pt poly) := by
  unfold point_in_polygon_checked point_in_polygon
  by_cases h : poly.length < 3
  · simp [h]
  · simp only [h, if_neg, ite_false]
    exact foldlM_crosses_ok pt.1 pt.2 (polygonEdges poly) false

/-! ## Helper lemmas: first-match behaviour of `check_point_in_zones` -/

theorem checkZonesFrom_eq_neg_one_iff (pt : Point) :
    ∀ (zs : List (List Point)) (k : Nat),
      checkZonesFrom pt k zs = -1 ↔ ∀ poly ∈ zs, point_in_polygon pt poly = false := by
  intro zs
  induction zs with
  | nil => intro k; simp [checkZonesFrom]
  | cons poly rest ih =>
      intro k
      by_cases h : point_in_polygon pt poly
      · simp only [checkZonesFrom, h, if_pos]
        constructor
        · intro hk; exact absurd hk (by omega)
        · intro hall; exact absurd (hall poly (List.mem_cons_self _ _)) (by simp [h])
      · simp only [checkZonesFrom, h, if_neg, Bool.not_eq_true]
        rw [ih (k + 1)]
        constructor
        · intro hrest q hq
          rcases List.mem_cons.mp hq with rfl | hq'
          · simpa using h
          · exact hrest q hq'
        · intro hall q hq
          exact hall q (List.mem_cons_of_mem _ hq)

theorem checkZonesFrom_cases (pt : Point) :
    ∀ (zs : List (List Point)) (k : Nat),
      checkZonesFrom pt k zs = -1 ∨
        ∃ i : Nat, i < zs.length ∧ checkZonesFrom pt k zs = ((k + i : Nat) : Int) := by
  intro zs
  induction zs with
  | nil => intro k; exact Or.inl rfl
  | cons poly rest ih =>
      intro k
      by_cases h : point_in_polygon pt poly
      · refine Or.inr ⟨0, by simp, ?_⟩
        simp [checkZonesFrom, h]
      · rcases ih (k + 1) with h1 | ⟨i, hi, he⟩
        · left; simpa [checkZonesFrom, h] using h1
        · refine Or.inr ⟨i + 1, by simp; omega, ?_⟩
          have : checkZonesFrom pt k (poly :: rest) = checkZonesFrom pt (k + 1) rest := by
            simp [checkZonesFrom, h]
          rw [this, he]
          congr 1
          omega

theorem checkZonesFrom_spec (pt : Point) :
    ∀ (zs : List (List Point)) (k i : Nat),
      checkZonesFrom pt k zs = ((k + i : Nat) : Int) →
        i < zs.length ∧ point_in_polygon pt (zs.getD i []) = true ∧
          ∀ j, j < i → point_in_polygon pt (zs.getD j []) = false := by
  intro zs
  induction zs with
  | nil =>
      intro k i h
      simp [checkZonesFrom] at h
      omega
  | cons poly rest ih =>
      intro k i h
      by_cases hp : point_in_polygon pt poly
      · have hk : checkZonesFrom pt k (poly :: rest) = (k : Int) := by
          simp [checkZonesFrom, hp]
        rw [hk] at h
        have hi0 : i = 0 := by omega
        subst hi0
        refine ⟨by simp, by simpa using hp, ?_⟩
        intro j hj
        omega
      · have hk : checkZonesFrom pt k (poly :: rest) = checkZonesFrom pt (k + 1) rest := by
          simp [checkZonesFrom, hp]
        rw [hk] at h
        rcases checkZonesFrom_cases pt rest (k + 1) with hneg | ⟨i', hi', he⟩
        · rw [hneg] at h; omega
        · have hii : i = i' + 1 := by
            rw [he] at h
            omega
          subst hii
          obtain ⟨h1, h2, h3⟩ := ih (k + 1) i' (by rw [he])
          refine ⟨by simp; omega, by simpa using h2, ?_⟩
          intro j hj
          cases j with
          | zero => simpa using hp
          | succ j' =>
              have := h3 j' (by omega)
              simpa using this

theorem check_point_in_zones_eq_neg_one_iff (pt : Point) (zs : List (List Point)) :
    check_point_in_zones pt zs = -1 ↔ ∀ poly ∈ zs, point_in_polygon pt poly = false :=
  checkZonesFrom_eq_neg_one_iff pt zs 0

theorem check_point_in_zones_spec (pt : Point) (zs : List (List Point)) (i : Nat)
    (h : check_point_in_zones pt zs = (i : Int)) :
    i < zs.length ∧ point_in_polygon pt (zs.getD i []) = true ∧
      ∀ j, j < i → point_in_polygon pt (zs.getD j []) = false :=
  checkZonesFrom_spec pt zs 0 i (by simpa [check_point_in_zones] using h)

theorem check_point_in_zones_cases (pt : Point) (zs : List (List Point)) :
    check_point_in_zones pt zs = -1 ∨
      ∃ i : Nat, i < zs.length ∧ check_point_in_zones pt zs = (i : Int) := by
  rcases checkZonesFrom_cases pt zs 0 with h | ⟨i, hi, he⟩
  · exact Or.inl h
  · exact Or.inr ⟨i, hi, by simpa [check_point_in_zones] using he⟩

end VehicleAnalytics

namespace VehicleAnalytics

/-! ## Helper lemmas: count dictionaries and list updates -/

theorem getCount_bump_self (m : List (String × Nat)) (key : String) :
    getCount (bump m key) key = getCount m key + 1 := by
  induction m with
  | nil => simp [bump, getCount]
  | cons kv rest ih =>
      obtain ⟨k, v⟩ := kv
      by_cases h : k = key
      · simp [bump, getCount, h]
      · simp [bump, getCount, h, ih]

theorem getCount_bump_ne (m : List (String × Nat)) (key other : String)
    (h : other ≠ key) :
    getCount (bump m key) other = getCount m other := by
  induction m with
  | nil => simp [bump, getCount, Ne.symm h]
  | cons kv rest ih =>
      obtain ⟨k, v⟩ := kv
      by_cases hk : k = key
      · subst hk
        simp [bump, getCount, Ne.symm h]
      · by_cases ho : k = other
        · simp [bump, getCount, hk, ho, h, Ne.symm h]
        · simp [bump, getCount, hk, ho, ih]

theorem getCount_bump (m : List (String × Nat)) (key other : String) :
    getCount (bump m key) other
      = getCount m other + (if other = key then 1 else 0) := by
  by_cases h : other = key
  · subst h; simp [getCount_bump_self]
  · simp [h, getCount_bump_ne m key other h]

theorem sumCounts_bump (m : List (String × Nat)) (key : String) :
    sumCounts (bump m key) = sumCounts m + 1 := by
  induction m with
  | nil => simp [bump, sumCounts]
  | cons kv rest ih =>
      obtain ⟨k, v⟩ := kv
      by_cases h : k = key
      · simp [bump, sumCounts, h]; omega
      · simp [bump, sumCounts, h] at ih ⊢; omega

theorem length_modifyIdx (l : List α) (i : Nat) (f : α → α) :
    (modifyIdx l i f).length = l.length := by
  induction l generalizing i with
  | nil => simp [modifyIdx]
  | cons a rest ih => cases i <;> simp [modifyIdx, ih]

theorem getD_modifyIdx_self (l : List α) (i : Nat) (f : α → α) (d : α)
    (h : i < l.length) :
    (modifyIdx l i f).getD i d = f (l.getD i d) := by
  induction l generalizing i with
  | nil => simp at h
  | cons a rest ih =>
      cases i with
      | zero => simp [modifyIdx]
      | succ n => simp only [modifyIdx, List.getD_cons_succ]; exact ih n (by simpa using h)

theorem getD_modifyIdx_ne (l : List α) (i j : Nat) (f : α → α) (d : α)
    (h : j ≠ i) :
    (modifyIdx l i f).getD j d = l.getD j d := by
  induction l generalizing i j with
  | nil => simp [modifyIdx]
  | cons a rest ih =>
      cases i with
      | zero =>
          cases j with
          | zero => exact absurd rfl h
          | succ m => simp [modifyIdx]
      | succ n =>
          cases j with
          | zero => simp [modifyIdx]
          | succ m =>
              simp only [modifyIdx, List.getD_cons_succ]
              exact ih n m (by omega)

theorem sumZoneCounts_modifyIdx_bump (zvc : List (List (String × Nat)))
    (i : Nat) (name : String) (h : i < zvc.length) :
    sumZoneCounts (modifyIdx zvc i (fun m => bump m name)) = sumZoneCounts zvc + 1 := by
  induction zvc generalizing i with
  | nil => simp at h
  | cons m rest ih =>
      cases i with
      | zero => simp [modifyIdx, sumZoneCounts, sumCounts_bump]; omega
      | succ n =>
          have := ih n (by simpa using h)
          simp [modifyIdx, sumZoneCounts] at this ⊢
          omega

theorem getD_replicate_nil (n z : Nat) :
    (List.replicate n ([] : List (String × Nat))).getD z [] = [] := by
  induction n generalizing z with
  | zero => simp
  | succ k ih =>
      cases z with
      | zero => simp [List.replicate]
      | succ m =>
          simp only [List.replicate, List.getD_cons_succ]
          exact ih m

/-! ## Helper lemmas: vehicle and excluded classes -/

theorem isVehicleClass_cases (c : Nat) (h : isVehicleClass c = true) :
    c = 2 ∨ c = 3 ∨ c = 5 ∨ c = 7 := by
  by_cases h2 : c = 2
  · exact Or.inl h2
  by_cases h3 : c = 3
  · exact Or.inr (Or.inl h3)
  by_cases h5 : c = 5
  · exact Or.inr (Or.inr (Or.inl h5))
  by_cases h7 : c = 7
  · exact Or.inr (Or.inr (Or.inr h7))
  exfalso
  have e2 : ¬(2 = c) := by omega
  have e3 : ¬(3 = c) := by omega
  have e5 : ¬(5 = c) := by omega
  have e7 : ¬(7 = c) := by omega
  simp [isVehicleClass, vehicle_class_ids, lookupClassName, e2, e3, e5, e7] at h

theorem vehicle_class_not_excluded (c : Nat) (h : isVehicleClass c = true) :
    isExcludedClass c = false := by
  rcases isVehicleClass_cases c h with rfl | rfl | rfl | rfl <;> rfl

end VehicleAnalytics

namespace VehicleAnalytics

/-! ## Helper lemmas: one step and the whole fold of the counting loop -/

theorem countDetection_spec (polys : List (List Point)) (s : Stats) (d : Detection)
    (hlen : s.zone_vehicle_counts.length = polys.length) :
    ((countDetection polys s d).total_vehicles
        = s.total_vehicles + (if keepDetection polys d then 1 else 0))
    ∧ ((countDetection polys s d).zone_vehicle_counts.length = polys.length)
    ∧ (∀ name, getCount (countDetection polys s d).vehicle_type_counts name
        = getCount s.vehicle_type_counts name
          + (if keepDetection polys d && (model_names d.cls_id == name) then 1 else 0))
    ∧ (∀ z : Nat, ∀ name,
        getCount ((countDetection polys s d).zone_vehicle_counts.getD z []) name
        = getCount (s.zone_vehicle_counts.getD z []) name
          + (if keepDetection polys d
               && (check_point_in_zones (centroid d) polys == (z : Int))
               && (model_names d.cls_id == name) then 1 else 0))
    ∧ (sumCounts (countDetection polys s d).vehicle_type_counts
        = sumCounts s.vehicle_type_counts + (if keepDetection polys d then 1 else 0))
    ∧ (sumZoneCounts (countDetection polys s d).zone_vehicle_counts
        = sumZoneCounts s.zone_vehicle_counts + (if keepDetection polys d then 1 else 0)) := by
  by_cases hv : isVehicleClass d.cls_id = true
  · by_cases hz : check_point_in_zones (centroid d) polys = -1
    · -- vehicle class but centroid in no zone: nothing is counted
      have hkeep : keepDetection polys d = false := by simp [keepDetection, hz]
      have hstep : countDetection polys s d = s := by
        simp [countDetection, hz]
      simp [hstep, hkeep, hlen]
    · -- counted detection
      rcases check_point_in_zones_cases (centroid d) polys with h | ⟨i, hilt, hieq⟩
      · exact absurd h hz
      have hkeep : keepDetection polys d = true := by simp [keepDetection, hv, hz]
      have hguard : check_point_in_zones (centroid d) polys
          < (s.zone_vehicle_counts.length : Int) := by
        rw [hieq, hlen]
        exact_mod_cast hilt
      have htonat : (check_point_in_zones (centroid d) polys).toNat = i := by
        rw [hieq]
        exact Int.toNat_natCast i
      have hstep : countDetection polys s d =
          { total_vehicles := s.total_vehicles + 1
            vehicle_type_counts := bump s.vehicle_type_counts (model_names d.cls_id)
            zone_vehicle_counts := modifyIdx s.zone_vehicle_counts i
              (fun m => bump m (model_names d.cls_id)) } := by
        simp [countDetection, hv, hz, hguard, htonat]
      rw [hstep]
      refine ⟨by simp [hkeep], by simp [length_modifyIdx, hlen], ?_, ?_, ?_, ?_⟩
      · intro name
        by_cases hn : model_names d.cls_id = name
        · subst hn
          simp [getCount_bump_self, hkeep]
        · simp [getCount_bump_ne _ _ _ (Ne.symm hn), hkeep, hn]
      · intro z name
        by_cases hzi : z = i
        · subst hzi
          have hiz : (check_point_in_zones (centroid d) polys == (z : Int)) = true := by
            simp [hieq]
          rw [getD_modifyIdx_self _ _ _ _ (by omega : z < s.zone_vehicle_counts.length)]
          by_cases hn : model_names d.cls_id = name
          · subst hn
            simp [getCount_bump_self, hkeep, hiz]
          · simp [getCount_bump_ne _ _ _ (Ne.symm hn), hkeep, hiz, hn]
        · have hiz : (check_point_in_zones (centroid d) polys == (z : Int)) = false := by
            simp [hieq]
            omega
          rw [getD_modifyIdx_ne _ _ _ _ _ hzi]
          simp [hiz]
      · simp [sumCounts_bump, hkeep]
      · simp [sumZoneCounts_modifyIdx_bump _ _ _ (by omega : i < s.zone_vehicle_counts.length),
          hkeep]
  · -- not a vehicle class: nothing is counted
    have hkeep : keepDetection polys d = false := by simp [keepDetection, hv]
    have hstep : countDetection polys s d = s := by
      simp [countDetection, hv]
    simp [hstep, hkeep, hlen]

theorem foldl_countDetection_spec (polys : List (List Point)) :
    ∀ (dets : List Detection) (s : Stats),
      s.zone_vehicle_counts.length = polys.length →
      ((dets.foldl (countDetection polys) s).total_vehicles
          = s.total_vehicles + (dets.filter (keepDetection polys)).length)
      ∧ ((dets.foldl (countDetection polys) s).zone_vehicle_counts.length = polys.length)
      ∧ (∀ name, getCount (dets.foldl (countDetection polys) s).vehicle_type_counts name
          = getCount s.vehicle_type_counts name
            + (dets.filter (fun d =>
                keepDetection polys d && (model_names d.cls_id == name))).length)
      ∧ (∀ z : Nat, ∀ name,
          getCount ((dets.foldl (countDetection polys) s).zone_vehicle_counts.getD z []) name
          = getCount (s.zone_vehicle_counts.getD z []) name
            + (dets.filter (fun d => keepDetection polys d
                && (check_point_in_zones (centroid d) polys == (z : Int))
                && (model_names d.cls_id == name))).length)
      ∧ (sumCounts (dets.foldl (countDetection polys) s).vehicle_type_counts
          = sumCounts s.vehicle_type_counts + (dets.filter (keepDetection polys)).length)
      ∧ (sumZoneCounts (dets.foldl (countDetection polys) s).zone_vehicle_counts
          = sumZoneCounts s.zone_vehicle_counts
            + (dets.filter (keepDetection polys)).length) := by
  intro dets
  induction dets with
  | nil => intro s hlen; simp [hlen]
  | cons d rest ih =>
      intro s hlen
      obtain ⟨h1, h2, h3, h4, h5, h6⟩ := countDetection_spec polys s d hlen
      obtain ⟨g1, g2, g3, g4, g5, g6⟩ := ih (countDetection polys s d) h2
      refine ⟨?_, g2, ?_, ?_, ?_, ?_⟩
      · rw [List.foldl_cons, g1, h1, List.filter_cons]
        by_cases hk : keepDetection polys d = true
        · simp [hk] <;> omega
        · simp [hk]
      · intro name
        rw [List.foldl_cons, g3 name, h3 name, List.filter_cons]
        by_cases hk : (keepDetection polys d && (model_names d.cls_id == name)) = true
        · simp [hk] <;> omega
        · simp [hk]
      · intro z name
        rw [List.foldl_cons, g4 z name, h4 z name, List.filter_cons]
        by_cases hk : (keepDetection polys d
            && (check_point_in_zones (centroid d) polys == (z : Int))
            && (model_names d.cls_id == name)) = true
        · simp [hk] <;> omega
        · simp [hk]
      · rw [List.foldl_cons, g5, h5, List.filter_cons]
        by_cases hk : keepDetection polys d = true
        · simp [hk] <;> omega
        · simp [hk]
      · rw [List.foldl_cons, g6, h6, List.filter_cons]
        by_cases hk : keepDetection polys d = true
        · simp [hk] <;> omega
        · simp [hk]

theorem validateZones_fst_eq (zs : List Json) :
    (validateZones zs).1 = (validateZones zs).2.map zonePointsList := by
  induction zs with
  | nil => rfl
  | cons z rest ih =>
      by_cases h : zoneIsWellFormed z = true <;> simp [validateZones, h, ih]

theorem sumZoneCounts_replicate_nil (n : Nat) :
    sumZoneCounts (List.replicate n ([] : List (String × Nat))) = 0 := by
  induction n with
  | zero => rfl
  | succ k ih => simp [List.replicate, sumZoneCounts, sumCounts, ih]

end VehicleAnalytics

namespace VehicleAnalytics

/-! ## Claim theorems -/

/-- C1: in the per-frame analytics of `VideoCamera.generate`, a detection
is counted exactly when its class id is a tracked vehicle class and its
box centroid lies in some zone (`check_point_in_zones` returns an index
rather than `-1`): `total_vehicles` is the number of such detections,
`vehicle_type_counts[name]` the number of such detections with that class
name, and `zone_vehicle_counts[z][name]` the number of such detections
whose centroid is first located in zone `z`; a detection with a
non-vehicle class or with its centroid in no zone contributes to none of
the three tallies. -/
theorem C1_zone_analytics_counts (dets : List Detection) (polys : List (List Point)) :
    ((aggregate dets polys).total_vehicles = (dets.filter (keepDetection polys)).length)
    ∧ (∀ name, getCount (aggregate dets polys).vehicle_type_counts name
        = (dets.filter (fun d =>
            keepDetection polys d && (model_names d.cls_id == name))).length)
    ∧ (∀ z : Nat, ∀ name,
        getCount ((aggregate dets polys).zone_vehicle_counts.getD z []) name
        = (dets.filter (fun d => keepDetection polys d
            && (check_point_in_zones (centroid d) polys == (z : Int))
            && (model_names d.cls_id == name))).length)
    ∧ (∀ d : Detection, keepDetection polys d = true ↔
        (isVehicleClass d.cls_id = true
          ∧ check_point_in_zones (centroid d) polys ≠ -1)) := by
  obtain ⟨h1, h2, h3, h4, h5, h6⟩ :=
    foldl_countDetection_spec polys dets (initStats polys) (by simp [initStats])
  refine ⟨?_, ?_, ?_, ?_⟩
  · simpa [aggregate, initStats] using h1
  · intro name
    simpa [aggregate, initStats, getCount] using h3 name
  · intro z name
    simpa [aggregate, initStats, getD_replicate_nil, getCount] using h4 z name
  · intro d
    simp [keepDetection]

/-- C9: the two divergent `generate` implementations compute the same
statistics.  The older detect.py keep-condition (centroid in some zone,
vehicle class, and not the excluded person class) is equivalent to the
services/detect.py keep-condition (vehicle class and centroid in some
zone) because the excluded set is disjoint from the vehicle set, and the
three increments are identical, so the two aggregations agree on every
detection list and zone list. -/
theorem C9_variant_aggregations_agree (dets : List Detection) (polys : List (List Point)) :
    aggregate dets polys = aggregateLegacy dets polys := by
  have hstep : ∀ (s : Stats) (d : Detection),
      countDetection polys s d = countDetectionLegacy polys s d := by
    intro s d
    by_cases hv : isVehicleClass d.cls_id = true
    · have hx := vehicle_class_not_excluded d.cls_id hv
      by_cases hz : check_point_in_zones (centroid d) polys = -1
      · simp [countDetection, countDetectionLegacy, hv, hz]
      · simp [countDetection, countDetectionLegacy, hv, hz, hx]
    · simp [countDetection, countDetectionLegacy, hv]
  have hfold : ∀ (l : List Detection) (s : Stats),
      l.foldl (countDetection polys) s = l.foldl (countDetectionLegacy polys) s := by
    intro l
    induction l with
    | nil => intro s; rfl
    | cons d rest ih =>
        intro s
        rw [List.foldl_cons, List.foldl_cons, hstep s d, ih]
  exact hfold dets (initStats polys)

/-- C10: every stats snapshot is internally consistent: `total_vehicles`
equals the sum of `vehicle_type_counts` values and the sum of all
per-class counts across `zone_vehicle_counts`; validation yields exactly
one polygon per valid zone in input order and the aggregation keeps one
zone entry per polygon; and whenever `check_point_in_zones` reports a
match its index is in range, so the in-range guard before the per-zone
increment can never be false. -/
theorem C10_stats_snapshot_invariants (dets : List Detection) (polys : List (List Point))
    (zones_data : List Json) (pt : Point) :
    ((validateZones zones_data).1 = (validateZones zones_data).2.map zonePointsList)
    ∧ ((aggregate dets polys).zone_vehicle_counts.length = polys.length)
    ∧ ((aggregate dets polys).total_vehicles
        = sumCounts (aggregate dets polys).vehicle_type_counts)
    ∧ ((aggregate dets polys).total_vehicles
        = sumZoneCounts (aggregate dets polys).zone_vehicle_counts)
    ∧ (check_point_in_zones pt polys ≠ -1 →
        0 ≤ check_point_in_zones pt polys
        ∧ (check_point_in_zones pt polys).toNat < polys.length) := by
  obtain ⟨h1, h2, h3, h4, h5, h6⟩ :=
    foldl_countDetection_spec polys dets (initStats polys) (by simp [initStats])
  refine ⟨validateZones_fst_eq zones_data, h2, ?_, ?_, ?_⟩
  · have h5' : sumCounts (aggregate dets polys).vehicle_type_counts
        = (dets.filter (keepDetection polys)).length := by
      simpa [aggregate, initStats, sumCounts] using h5
    have h1' : (aggregate dets polys).total_vehicles
        = (dets.filter (keepDetection polys)).length := by
      simpa [aggregate, initStats] using h1
    rw [h1', h5']
  · have h6' : sumZoneCounts (aggregate dets polys).zone_vehicle_counts
        = (dets.filter (keepDetection polys)).length := by
      simpa [aggregate, initStats, sumZoneCounts_replicate_nil] using h6
    have h1' : (aggregate dets polys).total_vehicles
        = (dets.filter (keepDetection polys)).length := by
      simpa [aggregate, initStats] using h1
    rw [h1', h6']
  · intro hne
    rcases check_point_in_zones_cases pt polys with h | ⟨i, hi, he⟩
    · exact absurd h hne
    · rw [he]
      exact ⟨Int.natCast_nonneg i, by simpa [Int.toNat_natCast] using hi⟩

end VehicleAnalytics

namespace VehicleAnalytics

/-- C5: `check_point_in_zones` returns the index of the first polygon, in
input order, whose containment test accepts the point, and `-1` when no
polygon contains it; when several overlapping zones contain the point the
smallest index wins (every polygon before the returned index rejects the
point).  The embedding is a pure function of the point and the zone list,
so repeated calls on unchanged inputs give the same result by
construction. -/
theorem C5_locate_zone_first_match (pt : Point) (zs : List (List Point)) :
    (check_point_in_zones pt zs = -1 ↔ ∀ poly ∈ zs, point_in_polygon pt poly = false)
    ∧ (∀ i : Nat, check_point_in_zones pt zs = (i : Int) →
        i < zs.length ∧ point_in_polygon pt (zs.getD i []) = true ∧
          ∀ j, j < i → point_in_polygon pt (zs.getD j []) = false)
    ∧ (check_point_in_zones pt zs = -1 ∨
        ∃ i : Nat, i < zs.length ∧ check_point_in_zones pt zs = (i : Int)) :=
  ⟨check_point_in_zones_eq_neg_one_iff pt zs,
   fun i h => check_point_in_zones_spec pt zs i h,
   check_point_in_zones_cases pt zs⟩

/-- C5 witness: the point (1,1) against two identical overlapping
triangular zones: the result is index 0 (the first match), whose polygon
indeed contains the point. -/
theorem C5_witness :
    check_point_in_zones (1, 1) [witnessTriangle, witnessTriangle] = ((0 : Nat) : Int)
    ∧ (0 < ([witnessTriangle, witnessTriangle] : List (List Point)).length
       ∧ point_in_polygon (1, 1)
           (([witnessTriangle, witnessTriangle] : List (List Point)).getD 0 []) = true) := by
  have h : check_point_in_zones (1, 1) [witnessTriangle, witnessTriangle]
      = ((0 : Nat) : Int) := by
    norm_num [check_point_in_zones, checkZonesFrom, witnessTriangle, point_in_polygon,
      polygonEdges, crossesEdge]
  obtain ⟨hlt, hpip, _⟩ :=
    (C5_locate_zone_first_match (1, 1) [witnessTriangle, witnessTriangle]).2.1 0 h
  exact ⟨h, hlt, hpip⟩

/-- C6: `point_in_polygon` is total: the instrumented version (which
raises exactly where the source expression would divide by zero) never
raises — the division is executed only under the `p1y != p2y` guard — and
every polygon with fewer than 3 points reports `false` for every query
point. -/
theorem C6_point_in_polygon_total (pt : Point) (poly : List Point) :
    point_in_polygon_checked pt poly = .ok (point_in_polygon pt poly)
    ∧ (poly.length < 3 → point_in_polygon pt poly = false) := by
  refine ⟨point_in_polygon_checked_eq pt poly, fun h => ?_⟩
  simp [point_in_polygon, h]

/-- C6 witness: a degenerate two-point polygon reports `false`. -/
theorem C6_witness :
    (([((0 : Rat), (0 : Rat)), (1, 1)] : List Point).length < 3)
    ∧ point_in_polygon ((0 : Rat), (0 : Rat)) [((0 : Rat), (0 : Rat)), (1, 1)] = false :=
  ⟨by norm_num,
   (C6_point_in_polygon_total ((0 : Rat), (0 : Rat))
     [((0 : Rat), (0 : Rat)), (1, 1)]).2 (by norm_num)⟩

/-- C10 witness: for the point (1,1) inside the single triangular zone,
`check_point_in_zones` reports a match whose index is nonnegative and in
range, so the in-range guard holds. -/
theorem C10_witness :
    check_point_in_zones (1, 1) [witnessTriangle] ≠ -1
    ∧ (0 ≤ check_point_in_zones (1, 1) [witnessTriangle]
       ∧ (check_point_in_zones (1, 1) [witnessTriangle]).toNat
           < ([witnessTriangle] : List (List Point)).length) := by
  have h : check_point_in_zones (1, 1) [witnessTriangle] ≠ -1 := by
    norm_num [check_point_in_zones, checkZonesFrom, witnessTriangle, point_in_polygon,
      polygonEdges, crossesEdge]
  exact ⟨h, (C10_stats_snapshot_invariants [] [witnessTriangle] [] (1, 1)).2.2.2.2 h⟩

/-- C4: `load_zones` never raises — refuted.  The `except` clause catches
only `json.JSONDecodeError` and `IOError`; on a file whose JSON top level
is not an object (for example the valid JSON document holding an empty
array), `data.get('zones')` raises `AttributeError`, which propagates to
the caller.  The absent / unreadable / invalid-JSON / object-without-list
cases do return the empty sequence as the claim says. -/
theorem C4_load_zones_attribute_error :
    (load_zones (FileState.content (Json.arr [])) = Except.error PyErr.attributeError)
    ∧ (load_zones (FileState.content (Json.str "zones")) = Except.error PyErr.attributeError)
    ∧ (load_zones FileState.absent = Except.ok [])
    ∧ (load_zones FileState.unreadable = Except.ok [])
    ∧ (load_zones FileState.invalidJson = Except.ok [])
    ∧ (load_zones (FileState.content (Json.obj [("zones", Json.num 3)])) = Except.ok [])
    ∧ (load_zones (FileState.content (Json.obj [])) = Except.ok []) :=
  ⟨rfl, rfl, rfl, rfl, rfl, rfl, rfl⟩

/-- C2: a processing error never stalls the session loop — refuted for
zone loading.  `generate` calls `load_zones` and the zone validation loop
BEFORE its `try` block, so the `AttributeError` that `load_zones` raises
for a top-level-array zones file escapes the loop body and the generator
exits (no frame is yielded for that or any later iteration), while an
error raised inside the `try` block (detection, aggregation, stats write,
annotation, encoding) does fall back to yielding the raw frame. -/
theorem C2_zone_load_error_escapes_loop :
    (generate_iter true (FileState.content (Json.arr [])) false
      = IterResult.uncaught PyErr.attributeError)
    ∧ (generate_iter true (FileState.content (Json.arr [])) true
      = IterResult.uncaught PyErr.attributeError)
    ∧ (generate_iter true (FileState.content (Json.obj [("zones", Json.arr [])])) true
      = IterResult.yieldRaw)
    ∧ (generate_iter true FileState.absent true = IterResult.yieldRaw)
    ∧ (generate_iter true FileState.absent false = IterResult.yieldAnnotated) :=
  ⟨rfl, rfl, rfl, rfl, rfl⟩

/-- C7 counterexample: `load_zones` returns a zone whose point list has
only 2 points unfiltered (and the `generate` shape validation also lets
it through, since it only checks for a dict with a list under
the points key), refuting the claim that the sequence returned by
`load_zones` contains no entry with fewer than 3 points. -/
theorem C7_counterexample_degenerate_zone_not_filtered :
    (load_zones (FileState.content (Json.obj [("zones", Json.arr [twoPointZone])]))
      = Except.ok [twoPointZone])
    ∧ (zonePointsList twoPointZone).length < 3
    ∧ zoneIsWellFormed twoPointZone = true :=
  ⟨rfl, by decide, rfl⟩

/-- C7 (amended): `load_zones` does not filter out zones whose point list
has fewer than 3 points; instead such zones are inert downstream:
`point_in_polygon` reports `false` on every polygon with fewer than 3
points, `check_point_in_zones` therefore never returns the index of such
a polygon, and the zone-drawing guards skip such polygons. -/
theorem C7_amended_degenerate_zones_inert (pt : Point) (poly : List Point)
    (zs : List (List Point)) (i : Nat) :
    (poly.length < 3 → point_in_polygon pt poly = false)
    ∧ (check_point_in_zones pt zs = (i : Int) → 3 ≤ (zs.getD i []).length)
    ∧ (poly.length < 3 → shouldDrawZonePolygon poly = false) := by
  refine ⟨fun h => by simp [point_in_polygon, h], fun h => ?_, fun h => ?_⟩
  · obtain ⟨hlt, hpip, _⟩ := check_point_in_zones_spec pt zs i h
    by_contra hcon
    push_neg at hcon
    have hfalse : point_in_polygon pt (zs.getD i []) = false := by
      unfold point_in_polygon
      rw [if_pos hcon]
    rw [hfalse] at hpip
    exact Bool.false_ne_true hpip
  · cases poly with
    | nil => rfl
    | cons a rest =>
        simp only [shouldDrawZonePolygon, List.isEmpty_cons, Bool.false_eq_true,
          if_false, decide_eq_false_iff_not]
        simp only [List.length_cons] at h ⊢
        omega

/-- C7 amended witness: a 2-point polygon is rejected by containment and
by the drawing guards, while the matched index against a triangular zone
points at a polygon with at least 3 points. -/
theorem C7_amended_witness :
    (([((0 : Rat), (0 : Rat)), (9, 0)] : List Point).length < 3)
    ∧ point_in_polygon (1, 1) [((0 : Rat), (0 : Rat)), (9, 0)] = false
    ∧ check_point_in_zones (1, 1) [witnessTriangle] = ((0 : Nat) : Int)
    ∧ 3 ≤ (([witnessTriangle] : List (List Point)).getD 0 []).length
    ∧ shouldDrawZonePolygon [((0 : Rat), (0 : Rat)), (9, 0)] = false := by
  have hlen : (([((0 : Rat), (0 : Rat)), (9, 0)] : List Point).length < 3) := by norm_num
  have hchk : check_point_in_zones (1, 1) [witnessTriangle] = ((0 : Nat) : Int) := by
    norm_num [check_point_in_zones, checkZonesFrom, witnessTriangle, point_in_polygon,
      polygonEdges, crossesEdge]
  obtain ⟨h1, h2, h3⟩ := C7_amended_degenerate_zones_inert (1, 1)
    [((0 : Rat), (0 : Rat)), (9, 0)] [witnessTriangle] 0
  exact ⟨hlen, h1 hlen, hchk, h2 hchk, h3 hlen⟩

/-- C8: release is idempotent, but the subprocess release path can raise —
refuted half.  Release on an already-released state (no subprocess, no
capture handle) is a no-op, as the claim says; but when the decoder
process is still alive after the `wait(timeout=5)` window, Python
`Popen.wait` raises `subprocess.TimeoutExpired`, which propagates out of
`_release_capture`, and the guarded `kill()` is never reached (after a
returning `wait` the process has exited, so `poll()` is never `None`):
the code never force-kills and can raise out of release. -/
theorem C8_release_timeout_raises_and_never_kills :
    (release_capture ⟨true, some ⟨false⟩, true⟩
      = ([RelEvent.terminateSent], Except.error PyErr.timeoutExpired))
    ∧ RelEvent.killed ∉ (release_capture ⟨true, some ⟨false⟩, true⟩).1
    ∧ RelEvent.killed ∉ (release_capture ⟨true, some ⟨true⟩, true⟩).1
    ∧ (release_capture ⟨true, some ⟨true⟩, true⟩
      = ([RelEvent.terminateSent, RelEvent.waited], Except.ok ⟨true, none, false⟩))
    ∧ (release_capture ⟨true, none, false⟩ = ([], Except.ok ⟨true, none, false⟩))
    ∧ (release_capture ⟨false, none, false⟩ = ([], Except.ok ⟨false, none, false⟩)) := by
  refine ⟨rfl, by decide, by decide, rfl, rfl, rfl⟩

/-! Induction lemma for the reconnect scenario: starting disconnected with
`M` re-initialization failures remaining before the first success. -/

theorem runReads_reconnect_aux (delay : Nat) :
    ∀ (M i r : Nat),
      (runReads delay ⟨fun k => decide (M + i ≤ k), fun _ => true⟩ (M + 1)
        ⟨false, i, r⟩).1
        = List.replicate M (false, delay) ++ [(true, 0)] := by
  intro M
  induction M with
  | zero =>
      intro i r
      simp [runReads, read_frame, readConnected]
  | succ M ih =>
      intro i r
      have hfail : (decide (M + 1 + i ≤ i)) = false := by
        simp only [decide_eq_false_iff_not]
        omega
      simp only [runReads, read_frame, Bool.not_false, if_true, hfail, Bool.false_eq_true,
        if_false, List.replicate, List.cons_append]
      refine congrArg (fun l => (false, delay) :: l) ?_
      have harith : M + 1 + i = M + (i + 1) := by omega
      simp only [harith]
      exact ih (i + 1) r

/-- C3: against a simulated source whose re-initialization fails `N`
times and then succeeds (and whose reads then succeed), `read_frame`
called repeatedly from the disconnected state returns the no-frame result
`N` times, sleeping the fixed `reconnect_delay` before each such return,
and returns a valid frame on the `(N+1)`-th call — all without raising
(the embedding is total: every failure path returns `(False, None)`).
The session loop never terminates during this: a failed read maps to
`continue`, never to loop exit. -/
theorem C3_reconnect_fails_N_times_then_succeeds (N delay : Nat) :
    ((runReads delay ⟨fun k => decide (N ≤ k), fun _ => true⟩ (N + 1)
        ⟨false, 0, 0⟩).1
      = List.replicate N (false, delay) ++ [(true, 0)])
    ∧ (∀ (zf : FileState) (b : Bool), generate_iter false zf b = .skipIteration) := by
  constructor
  · have h := runReads_reconnect_aux delay N 0 0
    simpa using h
  · intro zf b
    rfl

end VehicleAnalytics
